import Mathlib

/- Verification of pydantic's ValidateCallWrapper
   (pydantic/_internal/_validate_call.py): a shallow embedding of the wrapper's
   construction (`__init__`), call path (`__call__`), equality and hashing
   (`__eq__`, `__hash__`), identity resolution for functools partials, and the
   descriptor binding/caching protocol (`__get__`, `__set_name__`). -/

/-- A plain Python function, identified by `fid` (Python function equality and
hash are identity based), with the metadata the wrapper reads: `__name__` and
`__qualname__`. -/
structure RawFn where
  fid : Nat
  funcName : String
  qualname : String
deriving DecidableEq

/-- The result of `raw_function.__get__(obj, objtype)`: a plain function
(class access returns the function itself in Python 3) or a bound method
pairing the function with an instance. -/
inductive BoundFn where
  | plain (f : RawFn)
  | boundTo (f : RawFn) (instId : Nat)
deriving DecidableEq

/-- The `__name__` of a possibly bound callable. -/
def BoundFn.funcName : BoundFn → String
  | .plain f => f.funcName
  | .boundTo f _ => f.funcName

/-- The `__qualname__` of a possibly bound callable (a bound method exposes its
function's qualified name). -/
def BoundFn.qualname : BoundFn → String
  | .plain f => f.qualname
  | .boundTo f _ => f.qualname

/-- `raw_function.__get__(obj, objtype)`: binding a plain function to `None`
yields the function itself; binding it to an instance yields a bound method;
a CPython method object returns itself unchanged from `__get__`. -/
def bindFn : BoundFn → Option Nat → BoundFn
  | f, none => f
  | .plain f, some i => .boundTo f i
  | .boundTo f j, some _ => .boundTo f j

/-- Token standing for the `__pydantic_core_schema__` built in `__init__`:
schema generation is a pure function of the wrapped callable and the config
(the external generator is a black box, so the pair itself is the token). -/
abbrev SchemaTok := BoundFn × Option Nat

/-- The persistent state of a `ValidateCallWrapper` (its `__slots__`):
`raw_function`, `_config` (an opaque config token, value-compared like Python
dicts with equal tokens meaning equal configs), `_validate_return`, the core
schema, and `_name`.  `wid` is the object's identity (`id()` in Python), used
to distinguish identical objects from merely equal ones. -/
structure HWrapper where
  wid : Nat
  raw : BoundFn
  config : Option Nat
  validateReturn : Bool
  coreSchema : SchemaTok
  nameAttr : Option String
deriving DecidableEq

/-- The fields `__init__` stores on a freshly built wrapper: `raw_function`,
`_config`, `_validate_return`, the schema derived from the callable and config,
and `_name = None` (set at the end of `__init__`). `wid` is the fresh object's
identity. -/
def mkWrapperRecord (f : BoundFn) (cfg : Option Nat) (vr : Bool) (wid : Nat) : HWrapper :=
  { wid := wid, raw := f, config := cfg, validateReturn := vr,
    coreSchema := (f, cfg), nameAttr := none }

/-- `__set_name__(owner, name)`: records the attribute name on the wrapper. -/
def setNameOn (w : HWrapper) (n : String) : HWrapper := { w with nameAttr := some n }

/-- Python exceptions reachable from the modelled code paths. -/
inductive PyExc where
  | attrError (missing : String)
deriving DecidableEq

/-- An attribute value of an arbitrary Python object, as seen by `__eq__`:
a callable, a config, a bool, or any other value. -/
inductive AttrV where
  | fn (f : BoundFn)
  | cfg (c : Option Nat)
  | bl (b : Bool)
  | plainV (n : Nat)
deriving DecidableEq

/-- Python `==` between a wrapper field and an arbitrary value: values of
different kinds compare unequal (default object equality across types). -/
def attrEq : AttrV → AttrV → Bool
  | .fn a, .fn b => a == b
  | .cfg a, .cfg b => a == b
  | .bl a, .bl b => a == b
  | .plainV a, .plainV b => a == b
  | .fn _, .cfg _ => false
  | .fn _, .bl _ => false
  | .fn _, .plainV _ => false
  | .cfg _, .fn _ => false
  | .cfg _, .bl _ => false
  | .cfg _, .plainV _ => false
  | .bl _, .fn _ => false
  | .bl _, .cfg _ => false
  | .bl _, .plainV _ => false
  | .plainV _, .fn _ => false
  | .plainV _, .cfg _ => false
  | .plainV _, .bl _ => false

/-- An arbitrary Python object viewed as its attribute map, as `__eq__`'s
`other` operand is used. -/
abbrev EqTarget := List (String × AttrV)

/-- Attribute access `other.<k>`: `none` means the access raises
`AttributeError`. -/
def getattrT (o : EqTarget) (k : String) : Option AttrV :=
  (o.find? (fun p => p.1 == k)).map (fun p => p.2)

/-- A `ValidateCallWrapper` viewed as an `__eq__` operand: it exposes exactly
`raw_function`, `_config` and `_validate_return`. -/
def asEqTarget (w : HWrapper) : EqTarget :=
  [("raw_function", .fn w.raw), ("_config", .cfg w.config),
   ("_validate_return", .bl w.validateReturn)]

/-- `ValidateCallWrapper.__eq__(self, other)`: the conjunction
`(self.raw_function == other.raw_function) and (self._config == other._config)
and (self._validate_return == other._validate_return)`, with Python's
left-to-right evaluation and `and` short-circuiting; each attribute access on
`other` may raise `AttributeError`. -/
def vcwEqDunder (self : HWrapper) (other : EqTarget) : Except PyExc Bool :=
  match getattrT other "raw_function" with
  | none => .error (.attrError "raw_function")
  | some orf =>
    if !attrEq (.fn self.raw) orf then .ok false
    else
      match getattrT other "_config" with
      | none => .error (.attrError "_config")
      | some oc =>
        if !attrEq (.cfg self.config) oc then .ok false
        else
          match getattrT other "_validate_return" with
          | none => .error (.attrError "_validate_return")
          | some ov => .ok (attrEq (.bl self.validateReturn) ov)

/-- Python's `hash` of the raw callable: identity based for plain functions; a
bound method hashes from its function and receiver. -/
def fnHash : BoundFn → Nat
  | .plain f => f.fid
  | .boundTo f i => f.fid + 1000003 * (i + 1)

/-- `ValidateCallWrapper.__hash__(self) = hash(self.raw_function)`. -/
def vcwHash (w : HWrapper) : Nat := fnHash w.raw

/- ===== The descriptor protocol (`__get__`) and its caching state ===== -/

/-- The statically known data of a class: `__name__`, whether
`hasattr(C, '__slots__')` holds, and its method resolution order (own id
first). -/
structure ClassInfo where
  cname : String
  slotsAttr : Bool
  mro : List Nat
deriving DecidableEq

/-- The static object environment: classes by id, and each instance's class. -/
structure Env where
  classes : List (Nat × ClassInfo)
  instCls : List (Nat × Nat)
deriving DecidableEq

/-- The mutable state `__get__` acts on: an allocation counter for fresh
wrapper identities, the wrapper heap, and the instance and class attribute
dictionaries (attribute name to wrapper id; the class dict of the declaring
class also holds the originally attached wrapper). -/
structure Sys where
  nextId : Nat
  heap : List (Nat × HWrapper)
  instDicts : List (Nat × List (String × Nat))
  classDicts : List (Nat × List (String × Nat))
deriving DecidableEq

/-- First-match lookup in a Nat-keyed association list (later writes are
prepended, so the first match is the current value). -/
def lookupN {α : Type} (l : List (Nat × α)) (k : Nat) : Option α :=
  (l.find? (fun p => p.1 == k)).map (fun p => p.2)

/-- `d[k]` for an attribute dictionary. -/
def dictGet (d : List (String × Nat)) (k : String) : Option Nat :=
  (d.find? (fun p => p.1 == k)).map (fun p => p.2)

/-- `d[k] = v` (by shadowing). -/
def dictSet (d : List (String × Nat)) (k : String) (v : Nat) : List (String × Nat) :=
  (k, v) :: d

/-- All wrapper ids stored in an attribute dictionary (shadowed entries
included, so freshness statements cover them too). -/
def dictVals (d : List (String × Nat)) : List Nat := d.map (fun p => p.2)

/-- The class's own `__dict__`. -/
def Sys.classDictOf (s : Sys) (c : Nat) : List (String × Nat) :=
  (lookupN s.classDicts c).getD []

/-- The instance's own `__dict__`. -/
def Sys.instDictOf (s : Sys) (i : Nat) : List (String × Nat) :=
  (lookupN s.instDicts i).getD []

/-- Dereference a wrapper id in the heap. -/
def Sys.heapGet (s : Sys) (w : Nat) : Option HWrapper := lookupN s.heap w

/-- Overwrite a heap cell (used for the `self._name` mutation and for fresh
allocations). -/
def Sys.heapSet (s : Sys) (k : Nat) (w : HWrapper) : Sys :=
  { s with heap := (k, w) :: s.heap }

/-- `object.__setattr__(obj, name, value)` on an instance. -/
def Sys.setInstAttr (s : Sys) (i : Nat) (k : String) (v : Nat) : Sys :=
  { s with instDicts := (i, dictSet (s.instDictOf i) k v) :: s.instDicts }

/-- `object.__setattr__(objtype, name, value)` on a class. -/
def Sys.setClassAttr (s : Sys) (c : Nat) (k : String) (v : Nat) : Sys :=
  { s with classDicts := (c, dictSet (s.classDictOf c) k v) :: s.classDicts }

/-- Class metadata lookup. -/
def Env.classInfo (e : Env) (c : Nat) : Option ClassInfo := lookupN e.classes c

/-- `type(instance)`. -/
def Env.instClass (e : Env) (i : Nat) : Option Nat := lookupN e.instCls i

/-- Split a list of characters on the dot character, as Python's
`str.split('.')` does. -/
def splitOnDot : List Char → List (List Char)
  | [] => [[]]
  | c :: rest =>
    let r := splitOnDot rest
    if c = '.' then [] :: r
    else
      match r with
      | [] => [[c]]
      | h :: t => (c :: h) :: t

/-- `qualname.split('.')[0]`: the first dotted component of a qualified name
(for a method `Base.m` this is the declaring class's name `Base`). -/
def headComponent (s : String) : String :=
  String.mk ((splitOnDot s.data).headD [])

/-- The value of `calling_class` in `__get__`: either the class object
`obj.__class__` (instance access) or the string `objtype.__name__` (class
access) - the source's asymmetry is kept. -/
inductive CallerTag where
  | classObj (cid : Nat)
  | nameStr (n : String)
deriving DecidableEq

/-- Python's `calling_class != raw_function_class`, whose right operand is
always a string: a class object never equals a string (default cross-type
equality), so the instance-access side is constantly `true`. -/
def tagNe : CallerTag → String → Bool
  | .classObj _, _ => true
  | .nameStr n, s => n != s

/-- The tail of `ValidateCallWrapper.__get__` after the class-attribute
short-circuit: bind the raw function, build a fresh wrapper around the bound
callable with the same config and flag, and cache it on the instance (or the
class) unless `self._name` is unknown, `__slots__` is present on `obj` or
`objtype`, or `calling_class != raw_function_class`. -/
def vcwGetBind (env : Env) (s : Sys) (self : HWrapper) (obj : Option Nat) (objty : Nat) :
    Sys × Option Nat :=
  let bound := bindFn self.raw obj
  let rid := s.nextId
  let s1 : Sys := { s with nextId := rid + 1,
                           heap := (rid, mkWrapperRecord bound self.config self.validateReturn rid) :: s.heap }
  let objSlots : Bool :=
    match obj with
    | some o =>
      match env.instClass o with
      | some c => ((env.classInfo c).map (fun ci => ci.slotsAttr)).getD false
      | none => false
    | none => false
  let tySlots : Bool := ((env.classInfo objty).map (fun ci => ci.slotsAttr)).getD false
  let hasSlots := objSlots || tySlots
  let callingClass : CallerTag :=
    match obj with
    | some o => .classObj ((env.instClass o).getD 0)
    | none => .nameStr (((env.classInfo objty).map (fun ci => ci.cname)).getD "")
  let rawFnClass := headComponent self.raw.qualname
  if self.nameAttr.isSome && !(hasSlots || tagNe callingClass rawFnClass) then
    match obj, self.nameAttr with
    | some o, some nm => (s1.setInstAttr o nm rid, some rid)
    | none, some nm => (s1.setClassAttr objty nm rid, some rid)
    | _, _ => (s1, some rid)
  else (s1, some rid)

/-- The `try` of `__get__`'s class-access path:
`objtype.__getattribute__(objtype, self._name)` resolves via
`object.__getattribute__` with the class in instance position, i.e. a raw
lookup in the class's own `__dict__` (the metaclass `type` supplies no user
attribute and instance-dict hits are returned without descriptor invocation);
on `AttributeError` fall through to binding. -/
def vcwGetTry (env : Env) (s : Sys) (self : HWrapper) (objty : Nat) : Sys × Option Nat :=
  match self.nameAttr with
  | some nm =>
    match dictGet (s.classDictOf objty) nm with
    | some cached => (s, some cached)
    | none => vcwGetBind env s self none objty
  | none => vcwGetBind env s self none objty

/-- The `obj is None` path of `__get__`: if `self._name` is still unknown,
set it (mutating `self`) from `self.raw_function.__name__`, then attempt the
class-attribute short-circuit. -/
def vcwGetClass (env : Env) (s : Sys) (selfId : Nat) (self0 : HWrapper) (objty : Nat) :
    Sys × Option Nat :=
  match self0.nameAttr with
  | none =>
    let self1 := { self0 with nameAttr := some self0.raw.funcName }
    vcwGetTry env (s.heapSet selfId self1) self1 objty
  | some _ => vcwGetTry env s self0 objty

/-- `ValidateCallWrapper.__get__(self, obj, objtype)`. The result is the id of
the wrapper handed back to the attribute access (`none` only on a dangling
self id, which well-formed states exclude). -/
def vcwGet (env : Env) (s : Sys) (selfId : Nat) (obj : Option Nat) (objty : Nat) :
    Sys × Option Nat :=
  match s.heapGet selfId with
  | none => (s, none)
  | some self0 =>
    match obj with
    | none => vcwGetClass env s selfId self0 objty
    | some o => vcwGetBind env s self0 (some o) objty

/-- `type.__getattribute__(cls, attr)`'s lookup step: the first class along the
MRO whose `__dict__` holds the attribute. -/
def mroLookup (env : Env) (s : Sys) (cid : Nat) (attr : String) : Option Nat :=
  match env.classInfo cid with
  | none => none
  | some ci => ci.mro.findSome? (fun c => dictGet (s.classDictOf c) attr)

/-- Attribute access `Cls.attr` where the attribute is a wrapper: search the
MRO and invoke the found descriptor's `__get__(None, Cls)`. -/
def classAccess (env : Env) (s : Sys) (cid : Nat) (attr : String) : Sys × Option Nat :=
  match mroLookup env s cid attr with
  | some wid => vcwGet env s wid none cid
  | none => (s, none)

/-- Attribute access `instance.attr` where any type-level hit is a wrapper:
wrappers define only `__get__`, so they are non-data descriptors and the
instance `__dict__` takes precedence (this is what makes an instance-cached
wrapper short-circuit later lookups); otherwise the descriptor's
`__get__(instance, type(instance))` runs. -/
def instAccess (env : Env) (s : Sys) (iid : Nat) (attr : String) : Sys × Option Nat :=
  match env.instClass iid with
  | none => (s, none)
  | some cid =>
    match mroLookup env s cid attr with
    | some wid =>
      match dictGet (s.instDictOf iid) attr with
      | some v => (s, some v)
      | none => vcwGet env s wid (some iid) cid
    | none =>
      match dictGet (s.instDictOf iid) attr with
      | some v => (s, some v)
      | none => (s, none)

/-- An attribute access context: through a class, or through an instance. -/
inductive Access where
  | viaClass (cid : Nat)
  | viaInst (iid : Nat)
deriving DecidableEq

/-- Dispatch an attribute access. -/
def doAccess (env : Env) (s : Sys) : Access → String → Sys × Option Nat
  | .viaClass c, attr => classAccess env s c attr
  | .viaInst i, attr => instAccess env s i attr

/-- The wrapper ids an access context could legitimately serve from its own
cache: the accessed class's own `__dict__`, or the instance's own `__dict__`. -/
def ownVals (s : Sys) : Access → List Nat
  | .viaClass c => dictVals (s.classDictOf c)
  | .viaInst i => dictVals (s.instDictOf i)

/-- The class an access goes through. -/
def Access.throughCls (e : Env) : Access → Option Nat
  | .viaClass c => some c
  | .viaInst i => e.instClass i

/- ===== Call-time behaviour (`__call__` and the return strategies) ===== -/

/-- A `ValidationError` raised by the external validator engine. -/
structure VErr where
  code : Nat
deriving DecidableEq

/-- Python values crossing the call path: ground values, and awaitables
carrying the side effects performed and the outcome observed when they are
awaited. -/
inductive PyV where
  | base (n : Nat)
  | awaitOk (effs : List Nat) (v : PyV)
  | awaitErr (effs : List Nat) (e : VErr)
deriving DecidableEq

/-- The wrapped callable, instrumented with the side effects it performs: a
plain function runs its body at call time; a coroutine function
(`inspect.iscoroutinefunction`) returns an awaitable immediately, its body
effects deferred to the await. -/
inductive PyFunc (A : Type) where
  | plain (run : A → List Nat × PyV)
  | coro (body : A → List Nat × PyV)

/-- `inspect.iscoroutinefunction(f)`. -/
def PyFunc.isCoroutine {A : Type} : PyFunc A → Bool
  | .plain _ => false
  | .coro _ => true

/-- Invoking the callable on (coerced) arguments: the pair of the side effects
performed during the call itself and the returned value. -/
def PyFunc.call {A : Type} : PyFunc A → A → List Nat × PyV
  | .plain f, a => f a
  | .coro f, a => ([], PyV.awaitOk (f a).1 (f a).2)

/-- The stored `__return_pydantic_validator__`: either the return validator's
`validate_python` applied directly (synchronous strategy) or the coroutine
`return_val_wrapper` closing over it (asynchronous strategy). -/
inductive RetValidator where
  | immediate (check : PyV → Except VErr PyV)
  | deferredWrap (check : PyV → Except VErr PyV)

/-- Applying the stored return validator to the argument validator's result.
`return_val_wrapper` is a coroutine function: calling it returns a fresh
awaitable that first awaits the original result (performing its effects; an
exception there propagates without running validation) and only then
validates, so it never raises synchronously.  `__init__` pairs `deferredWrap`
only with coroutine callables, whose results are awaitables, so the `base`
case is unreachable in paired use. -/
def applyRet : RetValidator → PyV → Except VErr PyV
  | .immediate check, v => check v
  | .deferredWrap check, .awaitOk es w =>
    .ok (match check w with
         | .ok w' => .awaitOk es w'
         | .error e => .awaitErr es e)
  | .deferredWrap _, .awaitErr es e => .ok (.awaitErr es e)
  | .deferredWrap _, .base n => .ok (.base n)

/-- The call-relevant state of a wrapper: the raw callable, the argument
check performed by `__pydantic_validator__`, and the stored return
validator (`None` when `validate_return` is off). -/
structure CallWrapper (A : Type) where
  raw : PyFunc A
  argCheck : A → Except VErr A
  retValidator : Option RetValidator

/-- Modelled from the spec: `__pydantic_validator__.validate_python` on the
`ArgsKwargs` bundle, the behaviour of the external validator engine
(pydantic_core, out of src/).  Per spec section 4.3 steps 2-3: validate and
coerce the argument bundle; on failure raise `ValidationError` with the
underlying callable never invoked (so no side effects occur); on success
execute the callable on the coerced arguments and yield its result. -/
def argValidatorRun {A : Type} (check : A → Except VErr A) (f : PyFunc A) (a : A) :
    List Nat × Except VErr PyV :=
  match check a with
  | .error e => ([], .error e)
  | .ok a' => ((f.call a').1, .ok (f.call a').2)

/-- The return-validation part of `ValidateCallWrapper.__init__`: when
`validate_return` is set, select the strategy once from
`inspect.iscoroutinefunction(self.raw_function)` and store it; otherwise
store `None`. -/
def mkCallWrapper {A : Type} (f : PyFunc A) (check : A → Except VErr A)
    (validateReturn : Bool) (retCheck : PyV → Except VErr PyV) : CallWrapper A :=
  { raw := f, argCheck := check,
    retValidator :=
      if validateReturn then
        some (if f.isCoroutine then .deferredWrap retCheck else .immediate retCheck)
      else none }

/-- `ValidateCallWrapper.__call__(self, *args, **kwargs)`: run the argument
validator (which executes the callable), then route the result through the
stored return validator if there is one.  The first component is the trace of
side effects performed synchronously; an `error` second component is a
synchronously raised `ValidationError`. -/
def wrapperCall {A : Type} (w : CallWrapper A) (a : A) : List Nat × Except VErr PyV :=
  match argValidatorRun w.argCheck w.raw a with
  | (es, .error e) => (es, .error e)
  | (es, .ok res) =>
    match w.retValidator with
    | none => (es, .ok res)
    | some rv =>
      match applyRet rv res with
      | .ok v => (es, .ok v)
      | .error e => (es, .error e)

/- ===== Identity resolution (`__init__`'s isinstance-partial branch) ===== -/

/-- The identity metadata of a plain function: `__name__`, `__qualname__`, an
opaque token for `__annotations__`, `__module__` and `__doc__`. -/
structure FuncId where
  fname : String
  qualname : String
  annTok : Nat
  moduleName : String
  doc : Option String
deriving DecidableEq

/-- The callable handed to `__init__`: a plain function, or a functools
partial application whose `.func` is the underlying function. -/
inductive InitTarget where
  | func (f : FuncId)
  | papp (under : FuncId)
deriving DecidableEq

/-- The identity metadata `__init__` stores: `__name__`, `__qualname__`,
`__annotations__`, `__module__`, `__doc__`, and the `schema_type` passed to
`create_schema_validator`. -/
structure IdentityFields where
  dunderName : String
  dunderQualname : String
  annTok : Nat
  moduleName : String
  doc : Option String
  schemaType : FuncId
deriving DecidableEq

/-- The `isinstance(function, partial)` branch of `__init__`: a partial takes
`partial(<underlying name>)` as display and qualified name and inherits the
underlying function's annotations, module and doc; any other callable
contributes its own identity fields. -/
def resolveIdentity : InitTarget → IdentityFields
  | .papp u =>
    { dunderName := "partial(" ++ u.fname ++ ")"
      dunderQualname := "partial(" ++ u.qualname ++ ")"
      annTok := u.annTok
      moduleName := u.moduleName
      doc := u.doc
      schemaType := u }
  | .func f =>
    { dunderName := f.fname
      dunderQualname := f.qualname
      annTok := f.annTok
      moduleName := f.moduleName
      doc := f.doc
      schemaType := f }

/- ===== Concrete fixtures ===== -/

/-- A method `m` declared in class `Base` (`__qualname__ = "Base.m"`). -/
def fnM : RawFn := { fid := 0, funcName := "m", qualname := "Base.m" }

/-- Class `Base` (id 1), no `__slots__`. -/
def baseCls : ClassInfo := { cname := "Base", slotsAttr := false, mro := [1] }

/-- Class `Sub` (id 2), subclass of `Base`, no `__slots__`. -/
def subCls : ClassInfo := { cname := "Sub", slotsAttr := false, mro := [2, 1] }

/-- Environment with `Base`, `Sub`, an instance 10 of `Base` and an instance
20 of `Sub`. -/
def env0 : Env := { classes := [(1, baseCls), (2, subCls)], instCls := [(10, 1), (20, 2)] }

/-- The wrapper attached to `Base.m` at class-body time (so `__set_name__`
has recorded `_name = "m"`). -/
def w0 : HWrapper := setNameOn (mkWrapperRecord (.plain fnM) none false 0) "m"

/-- Initial state: wrapper 0 sits in `Base.__dict__["m"]`; both instance
dicts are empty. -/
def s0 : Sys :=
  { nextId := 1, heap := [(0, w0)],
    instDicts := [(10, []), (20, [])],
    classDicts := [(1, [("m", 0)]), (2, [])] }

/-- A wrapper dynamically attached to `Base.m`, so `__set_name__` never ran
and `_name` is still `None` (the situation the source's own comment
anticipates). -/
def w9 : HWrapper := mkWrapperRecord (.plain fnM) none false 0

/-- State for the C9 counterexample: wrapper 0 sits in `Base.__dict__["m"]`
with no recorded name. -/
def s9 : Sys :=
  { nextId := 1, heap := [(0, w9)], instDicts := [], classDicts := [(1, [("m", 0)])] }

/-- C2: if the argument bundle violates the wrapper's schema, the call raises
`ValidationError` synchronously and the underlying callable is never invoked:
the side-effect trace is empty. -/
theorem c2_arg_failure_no_invoke {A : Type} (w : CallWrapper A) (a : A) (e : VErr)
    (h : w.argCheck a = .error e) :
    wrapperCall w a = ([], .error e) := by
  unfold wrapperCall argValidatorRun
  rw [h]

/-- C2 witness at a concrete wrapper and argument. -/
theorem c2_arg_failure_no_invoke_wit :
    wrapperCall (mkCallWrapper (PyFunc.plain (fun _ : Nat => ([7], .base 0)))
      (fun _ => .error { code := 3 }) false Except.ok) 0 = ([], .error { code := 3 }) :=
  c2_arg_failure_no_invoke _ 0 { code := 3 } rfl

/-- C8: with `validate_return` off and valid arguments, the call returns the
argument validator's execution result verbatim (the raw callable's effects and
value on the coerced arguments) and raises no `ValidationError`. -/
theorem c8_no_return_validation_verbatim {A : Type} (f : PyFunc A)
    (check : A → Except VErr A) (rc : PyV → Except VErr PyV) (a a' : A)
    (h : check a = .ok a') :
    wrapperCall (mkCallWrapper f check false rc) a = ((f.call a').1, .ok (f.call a').2) := by
  unfold wrapperCall argValidatorRun mkCallWrapper
  simp only [h]
  rfl

/-- C8 witness. -/
theorem c8_no_return_validation_verbatim_wit :
    wrapperCall (mkCallWrapper (PyFunc.plain (fun n : Nat => ([n], .base n)))
      (fun n => .ok (n + 1)) false Except.ok) 4 = ([5], .ok (.base 5)) :=
  c8_no_return_validation_verbatim _ _ _ 4 5 rfl

/-- C5: for an asynchronous callable with `validate_return`, the call returns a
pending computation with no synchronous effects and no synchronous raise; the
pending computation performs the original body's effects and only then either
yields the validated value or raises `ValidationError` at await time. -/
theorem c5_async_error_at_await {A : Type} (body : A → List Nat × PyV)
    (check : A → Except VErr A) (rc : PyV → Except VErr PyV) (a a' : A)
    (h : check a = .ok a') :
    wrapperCall (mkCallWrapper (PyFunc.coro body) check true rc) a
      = ([], .ok (match rc (body a').2 with
                  | .ok w => .awaitOk (body a').1 w
                  | .error e => .awaitErr (body a').1 e)) := by
  unfold wrapperCall argValidatorRun mkCallWrapper
  simp only [h, PyFunc.call, PyFunc.isCoroutine]
  rfl

/-- C5 witness: an invalid return value surfaces as an error-at-await pending
computation, after the body's side effect. -/
theorem c5_async_error_at_await_wit :
    wrapperCall (mkCallWrapper (PyFunc.coro (fun _ : Nat => ([9], .base 2)))
      (fun n => .ok n) true (fun _ => .error { code := 5 })) 0
      = ([], .ok (.awaitErr [9] { code := 5 })) :=
  c5_async_error_at_await _ _ _ 0 0 rfl

/-- C4: the return-validation strategy is selected exactly once in `__init__`
from `inspect.iscoroutinefunction` and stored; a call is fully determined by
the stored argument check, the callable's call behaviour and the stored
return validator, so the strategy is never re-decided per call. -/
theorem c4_strategy_fixed_at_init {A : Type} :
    (∀ (f : PyFunc A) (check : A → Except VErr A) (rc : PyV → Except VErr PyV),
      (mkCallWrapper f check true rc).retValidator
        = some (if f.isCoroutine then .deferredWrap rc else .immediate rc)) ∧
    (∀ (w1 w2 : CallWrapper A) (a : A),
      w1.argCheck a = w2.argCheck a → (∀ x, w1.raw.call x = w2.raw.call x) →
      w1.retValidator = w2.retValidator → wrapperCall w1 a = wrapperCall w2 a) := by
  constructor
  · intro f check rc
    rfl
  · intro w1 w2 a hchk hcall hret
    unfold wrapperCall argValidatorRun
    rw [hchk, hret]
    cases hc : w2.argCheck a with
    | error e => rfl
    | ok a' =>
      dsimp only
      rw [hcall a']

/-- C4 witness: a plain callable and a coroutine callable with identical
stored state call identically, and the coroutine construction stores the
deferred strategy. -/
theorem c4_strategy_fixed_at_init_wit :
    (mkCallWrapper (PyFunc.coro (fun _ : Nat => ([5], .base 1)))
        (fun n => .ok n) true Except.ok).retValidator = some (.deferredWrap Except.ok) ∧
    wrapperCall { raw := PyFunc.plain (fun _ : Nat => ([], .awaitOk [5] (.base 1))),
                  argCheck := fun n => .ok n, retValidator := none } 0
      = wrapperCall { raw := PyFunc.coro (fun _ : Nat => ([5], .base 1)),
                      argCheck := fun n => .ok n, retValidator := none } 0 := by
  constructor
  · exact (c4_strategy_fixed_at_init (A := Nat)).1 _ _ _
  · exact (c4_strategy_fixed_at_init (A := Nat)).2 _ _ 0 rfl (fun x => rfl) rfl

/-- C7: wrapping a functools partial stores display name
`partial(<underlying name>)`, the similarly wrapped qualified name, and the
underlying function's annotations, module and doc; a non-partial callable
contributes its own identity fields. -/
theorem c7_identity_resolution :
    (∀ u : FuncId, resolveIdentity (.papp u)
      = { dunderName := "partial(" ++ u.fname ++ ")",
          dunderQualname := "partial(" ++ u.qualname ++ ")",
          annTok := u.annTok, moduleName := u.moduleName, doc := u.doc,
          schemaType := u }) ∧
    (∀ f : FuncId, resolveIdentity (.func f)
      = { dunderName := f.fname, dunderQualname := f.qualname, annTok := f.annTok,
          moduleName := f.moduleName, doc := f.doc, schemaType := f }) :=
  ⟨fun _ => rfl, fun _ => rfl⟩

/-- C10: comparing a wrapper with an object exposing none of `raw_function`,
`_config`, `_validate_return` (e.g. any non-wrapper value) raises
`AttributeError` instead of returning `False` or `NotImplemented`. -/
theorem c10_eq_missing_attrs_raises (w : HWrapper) (o : EqTarget)
    (h1 : getattrT o "raw_function" = none)
    (_hc : getattrT o "_config" = none)
    (_hv : getattrT o "_validate_return" = none) :
    vcwEqDunder w o = .error (.attrError "raw_function") := by
  unfold vcwEqDunder
  rw [h1]

/-- C10 witness: comparison against an attribute-less object. -/
theorem c10_eq_missing_attrs_raises_wit :
    vcwEqDunder w0 [] = .error (.attrError "raw_function") :=
  c10_eq_missing_attrs_raises w0 [] rfl rfl rfl

/-- C6: wrapper equality holds exactly when the raw callables, configs and
`validate_return` flags agree; the hash is the raw callable's hash; hence two
wrappers freshly built from the same callable, config and flag (distinct
object identities included) compare equal and hash equally. -/
theorem c6_eq_hash :
    (∀ w1 w2 : HWrapper,
      vcwEqDunder w1 (asEqTarget w2) = .ok true ↔
        (w1.raw = w2.raw ∧ w1.config = w2.config ∧ w1.validateReturn = w2.validateReturn)) ∧
    (∀ w : HWrapper, vcwHash w = fnHash w.raw) ∧
    (∀ (f : BoundFn) (c : Option Nat) (vr : Bool) (i j : Nat),
      vcwEqDunder (mkWrapperRecord f c vr i) (asEqTarget (mkWrapperRecord f c vr j)) = .ok true ∧
      vcwHash (mkWrapperRecord f c vr i) = vcwHash (mkWrapperRecord f c vr j)) := by
  have key : ∀ w1 w2 : HWrapper,
      vcwEqDunder w1 (asEqTarget w2) = .ok true ↔
        (w1.raw = w2.raw ∧ w1.config = w2.config ∧ w1.validateReturn = w2.validateReturn) := by
    intro w1 w2
    show vcwEqDunder w1 (asEqTarget w2) = .ok true ↔ _
    have e1 : getattrT (asEqTarget w2) "raw_function" = some (.fn w2.raw) := rfl
    have e2 : getattrT (asEqTarget w2) "_config" = some (.cfg w2.config) := rfl
    have e3 : getattrT (asEqTarget w2) "_validate_return" = some (.bl w2.validateReturn) := rfl
    unfold vcwEqDunder
    rw [e1, e2, e3]
    by_cases hraw : w1.raw = w2.raw
    · by_cases hcfg : w1.config = w2.config
      · simp [attrEq, hraw, hcfg]
      · simp [attrEq, hraw, hcfg]
    · simp [attrEq, hraw]
  refine ⟨key, fun _ => rfl, ?_⟩
  intro f c vr i j
  refine ⟨(key _ _).mpr ⟨rfl, rfl, rfl⟩, rfl⟩

/-- C6 witness: two fresh wrappings of the same callable with the same config
and flag, under distinct object identities, compare equal and hash equally. -/
theorem c6_eq_hash_wit :
    vcwEqDunder (mkWrapperRecord (.plain fnM) none false 5)
        (asEqTarget (mkWrapperRecord (.plain fnM) none false 7)) = .ok true ∧
    vcwHash (mkWrapperRecord (.plain fnM) none false 5)
      = vcwHash (mkWrapperRecord (.plain fnM) none false 7) :=
  c6_eq_hash.2.2 (.plain fnM) none false 5 7

theorem lookupN_cons_eq {α : Type} (l : List (Nat × α)) (k : Nat) (v : α) :
    lookupN ((k, v) :: l) k = some v := by
  simp [lookupN, List.find?]

theorem lookupN_cons_ne {α : Type} (l : List (Nat × α)) (k k' : Nat) (v : α) (h : k' ≠ k) :
    lookupN ((k, v) :: l) k' = lookupN l k' := by
  have hb : (k == k') = false := beq_eq_false_iff_ne.mpr (Ne.symm h)
  simp [lookupN, List.find?, hb]

theorem dictGet_mem_vals (d : List (String × Nat)) (k : String) (v : Nat)
    (h : dictGet d k = some v) : v ∈ dictVals d := by
  unfold dictGet at h
  cases hf : d.find? (fun p => p.1 == k) with
  | none => rw [hf] at h; simp at h
  | some entry =>
    rw [hf] at h
    simp at h
    have hm := List.mem_of_find?_eq_some hf
    exact h ▸ List.mem_map_of_mem (fun p => p.2) hm

theorem vcwGetBind_snd (env : Env) (s : Sys) (self : HWrapper) (obj : Option Nat) (objty : Nat) :
    (vcwGetBind env s self obj objty).2 = some s.nextId := by
  simp only [vcwGetBind]
  split
  · split <;> rfl
  · rfl

theorem vcwGetBind_heapGet (env : Env) (s : Sys) (self : HWrapper) (obj : Option Nat)
    (objty : Nat) (k : Nat) (h : k ≠ s.nextId) :
    (vcwGetBind env s self obj objty).1.heapGet k = s.heapGet k := by
  simp only [vcwGetBind]
  split
  · split <;> exact lookupN_cons_ne s.heap s.nextId k _ h
  · exact lookupN_cons_ne s.heap s.nextId k _ h

theorem vcwGetTry_result (env : Env) (s : Sys) (self : HWrapper) (objty : Nat) (s' : Sys) (r : Nat)
    (h : vcwGetTry env s self objty = (s', some r)) :
    r ∈ dictVals (s.classDictOf objty) ∨ r = s.nextId := by
  unfold vcwGetTry at h
  cases hn : self.nameAttr with
  | none =>
    rw [hn] at h
    dsimp only at h
    right
    have h2 := vcwGetBind_snd env s self none objty
    rw [h] at h2
    exact Option.some.inj h2
  | some nm =>
    rw [hn] at h
    dsimp only at h
    cases hd : dictGet (s.classDictOf objty) nm with
    | some cached =>
      rw [hd] at h
      dsimp only at h
      left
      have h2 : some cached = some r := congrArg Prod.snd h
      exact (Option.some.inj h2) ▸ dictGet_mem_vals _ _ _ hd
    | none =>
      rw [hd] at h
      dsimp only at h
      right
      have h2 := vcwGetBind_snd env s self none objty
      rw [h] at h2
      exact Option.some.inj h2

theorem vcwGetTry_heapGet (env : Env) (s : Sys) (self : HWrapper) (objty : Nat) (k : Nat)
    (h : k ≠ s.nextId) :
    (vcwGetTry env s self objty).1.heapGet k = s.heapGet k := by
  unfold vcwGetTry
  cases hn : self.nameAttr with
  | none =>
    dsimp only
    exact vcwGetBind_heapGet env s self none objty k h
  | some nm =>
    dsimp only
    cases hd : dictGet (s.classDictOf objty) nm with
    | some cached => rfl
    | none => exact vcwGetBind_heapGet env s self none objty k h

theorem vcwGetClass_result (env : Env) (s : Sys) (selfId : Nat) (self0 : HWrapper) (objty : Nat)
    (s' : Sys) (r : Nat) (h : vcwGetClass env s selfId self0 objty = (s', some r)) :
    r ∈ dictVals (s.classDictOf objty) ∨ r = s.nextId := by
  unfold vcwGetClass at h
  cases hn : self0.nameAttr with
  | none =>
    rw [hn] at h
    dsimp only at h
    exact vcwGetTry_result env (s.heapSet selfId { self0 with nameAttr := some self0.raw.funcName })
      { self0 with nameAttr := some self0.raw.funcName } objty s' r h
  | some nm =>
    rw [hn] at h
    dsimp only at h
    exact vcwGetTry_result env s self0 objty s' r h

theorem vcwGet_class_result (env : Env) (s : Sys) (selfId : Nat) (objty : Nat) (s' : Sys) (r : Nat)
    (h : vcwGet env s selfId none objty = (s', some r)) :
    r ∈ dictVals (s.classDictOf objty) ∨ r = s.nextId := by
  unfold vcwGet at h
  cases hg : s.heapGet selfId with
  | none => rw [hg] at h; dsimp only at h; simp at h
  | some self0 =>
    rw [hg] at h
    dsimp only at h
    exact vcwGetClass_result env s selfId self0 objty s' r h

theorem vcwGet_inst_result (env : Env) (s : Sys) (selfId : Nat) (o : Nat) (objty : Nat)
    (s' : Sys) (r : Nat) (h : vcwGet env s selfId (some o) objty = (s', some r)) :
    r = s.nextId := by
  unfold vcwGet at h
  cases hg : s.heapGet selfId with
  | none => rw [hg] at h; dsimp only at h; simp at h
  | some self0 =>
    rw [hg] at h
    dsimp only at h
    have h2 := vcwGetBind_snd env s self0 (some o) objty
    rw [h] at h2
    exact Option.some.inj h2

/-- C3: an attribute access through a class other than `base` (or through an
instance of such a class) never hands back a wrapper id stored in `base`'s
`__dict__`: the result is either served from the accessed context's own cache
or is a freshly allocated wrapper. -/
theorem c3_subclass_never_reuses_base_cache (env : Env) (s : Sys) (acc : Access) (attr : String)
    (s' : Sys) (r : Nat) (base : Nat)
    (hacc : doAccess env s acc attr = (s', some r))
    (hthrough : acc.throughCls env ≠ some base)
    (hfresh : ∀ v ∈ dictVals (s.classDictOf base), v < s.nextId)
    (hdisj : ∀ v ∈ dictVals (s.classDictOf base), v ∉ ownVals s acc) :
    r ∉ dictVals (s.classDictOf base) ∧ (r ∈ ownVals s acc ∨ r = s.nextId) := by
  have hres : r ∈ ownVals s acc ∨ r = s.nextId := by
    cases acc with
    | viaClass c =>
      unfold doAccess classAccess at hacc
      dsimp only at hacc
      cases hm : mroLookup env s c attr with
      | none => rw [hm] at hacc; dsimp only at hacc; simp at hacc
      | some wid =>
        rw [hm] at hacc
        dsimp only at hacc
        exact vcwGet_class_result env s wid c s' r hacc
    | viaInst i =>
      unfold doAccess instAccess at hacc
      dsimp only at hacc
      cases hic : env.instClass i with
      | none => rw [hic] at hacc; dsimp only at hacc; simp at hacc
      | some cid =>
        rw [hic] at hacc
        dsimp only at hacc
        cases hm : mroLookup env s cid attr with
        | some wid =>
          rw [hm] at hacc
          dsimp only at hacc
          cases hd : dictGet (s.instDictOf i) attr with
          | some v =>
            rw [hd] at hacc
            dsimp only at hacc
            left
            have h2 : some v = some r := congrArg Prod.snd hacc
            exact (Option.some.inj h2) ▸ dictGet_mem_vals _ _ _ hd
          | none =>
            rw [hd] at hacc
            dsimp only at hacc
            right
            exact vcwGet_inst_result env s wid i cid s' r hacc
        | none =>
          rw [hm] at hacc
          dsimp only at hacc
          cases hd : dictGet (s.instDictOf i) attr with
          | some v =>
            rw [hd] at hacc
            dsimp only at hacc
            left
            have h2 : some v = some r := congrArg Prod.snd hacc
            exact (Option.some.inj h2) ▸ dictGet_mem_vals _ _ _ hd
          | none => rw [hd] at hacc; dsimp only at hacc; simp at hacc
  refine ⟨?_, hres⟩
  intro hmem
  cases hres with
  | inl hown => exact hdisj r hmem hown
  | inr hfr =>
    have := hfresh r hmem
    omega

/-- C3 witness: accessing `m` (declared on `Base`, sitting in `Base.__dict__`
as wrapper 0) through subclass `Sub` yields the fresh wrapper 1, and nothing
cached under `Base`. -/
theorem c3_subclass_never_reuses_base_cache_wit :
    1 ∉ dictVals (s0.classDictOf 1) ∧
      (1 ∈ ownVals s0 (.viaClass 2) ∨ 1 = s0.nextId) :=
  c3_subclass_never_reuses_base_cache env0 s0 (.viaClass 2) "m"
    (doAccess env0 s0 (.viaClass 2) "m").1 1 1
    (by decide) (by decide) (by decide) (by decide)

/-- C1 (failing-input evidence): on instance access where the claim's three
guard conditions all hold - the attribute name is known, nothing has
`__slots__`, and the method is declared in the very class accessed through -
the code still caches nothing: `calling_class` is the class object while
`raw_function_class` is a string, the inequality test always fires, and
repeated accesses return distinct fresh wrappers instead of an identical
cached one. -/
theorem c1_instance_cache_never_hit :
    w0.nameAttr.isSome = true ∧
    baseCls.slotsAttr = false ∧
    headComponent fnM.qualname = baseCls.cname ∧
    (instAccess env0 s0 10 "m").2 = some 1 ∧
    dictGet ((instAccess env0 s0 10 "m").1.instDictOf 10) "m" = none ∧
    (instAccess env0 (instAccess env0 s0 10 "m").1 10 "m").2 = some 2 ∧
    (1 : Nat) ≠ 2 := by decide

/-- C9 counterexample: a class access through `Base` mutates the existing
wrapper in place (`_name` changes from `None` to `"m"`), refuting the claim
that `__get__` leaves every field and attribute of the accessed wrapper
unchanged. -/
theorem c9_get_mutates_name_cex :
    (vcwGet env0 s9 0 none 1).1.heapGet 0 ≠ s9.heapGet 0 := by decide

/-- C9 (amended): `__get__` never mutates the accessed wrapper's
`raw_function`, `_config`, `_validate_return` or core schema - it always
builds a new wrapper for the binding - and the only field it may mutate is
`_name`, which is set from `raw_function.__name__` exactly when the access is
through a class while the name is still unknown. -/
theorem c9_amended_only_name_set (env : Env) (s : Sys) (selfId : Nat) (obj : Option Nat)
    (objty : Nat) (self : HWrapper)
    (hself : s.heapGet selfId = some self)
    (hfresh : selfId < s.nextId) :
    ∃ nm, (vcwGet env s selfId obj objty).1.heapGet selfId
        = some { self with nameAttr := nm } ∧
      (nm = self.nameAttr ∨
        (obj = none ∧ self.nameAttr = none ∧ nm = some self.raw.funcName)) := by
  have hne : selfId ≠ s.nextId := Nat.ne_of_lt hfresh
  unfold vcwGet
  rw [hself]
  dsimp only
  cases obj with
  | some o =>
    refine ⟨self.nameAttr, ?_, Or.inl rfl⟩
    have heta : ({ self with nameAttr := self.nameAttr } : HWrapper) = self := rfl
    rw [heta, vcwGetBind_heapGet env s self (some o) objty selfId hne]
    exact hself
  | none =>
    unfold vcwGetClass
    cases hn : self.nameAttr with
    | some nm0 =>
      dsimp only
      refine ⟨some nm0, ?_, Or.inl rfl⟩
      have heta : ({ self with nameAttr := some nm0 } : HWrapper) = self := by rw [← hn]
      rw [heta, vcwGetTry_heapGet env s self objty selfId hne]
      exact hself
    | none =>
      dsimp only
      refine ⟨some self.raw.funcName, ?_, Or.inr ⟨rfl, rfl, rfl⟩⟩
      have h1 := vcwGetTry_heapGet env
        (s.heapSet selfId { self with nameAttr := some self.raw.funcName })
        { self with nameAttr := some self.raw.funcName } objty selfId hne
      rw [h1]
      exact lookupN_cons_eq s.heap selfId _

/-- C9 witness (amended form): an instance access on the initial state leaves
wrapper 0 untouched. -/
theorem c9_amended_only_name_set_wit :
    ∃ nm, (vcwGet env0 s0 0 (some 10) 1).1.heapGet 0 = some { w0 with nameAttr := nm } ∧
      (nm = w0.nameAttr ∨
        (some 10 = none ∧ w0.nameAttr = none ∧ nm = some w0.raw.funcName)) :=
  c9_amended_only_name_set env0 s0 0 (some 10) 1 w0 (by decide) (by decide)
